import Mathlib

/-!
# OTORI Vision Testnet — verification of the instruction state machine

Shallow embedding of the OVT treasury program (`src/program/src/lib.rs`,
`src/program/src/mock_sdk.rs`, `src/program/src/system.rs`) and of the
standalone UTXO payment verifier (`src/ovt-program/src/utxo.rs`).

Modelling conventions, fixed once for the whole file:

* Machine integers (`u8`, `u32`, `u64`) are `Nat`; the program only ever
  uses checked arithmetic on them, and explicit bounds (`u64MAX`,
  `u128MAX`) appear exactly where the source performs a range check.
* The two validators compare `f64` quotients of `u64` values against
  decimal literals.  The NAV guard divides by the fixed constant
  `1_000_000`, and at its decision boundaries (`41.0`, `0.05`) the
  integer grid of quotients is coarser than one `f64` ulp, so IEEE-754
  and exact arithmetic give the same verdict for every `u64` input; it
  is therefore modelled by the equivalent exact integer test, proved
  equal to the rational comparison by `nav_bound_bridge`.  The supply
  guard divides by the variable `total_supply`, where exact arithmetic
  and `f64` rounding genuinely disagree at large operands; it is
  modelled by an exact executable model of IEEE-754 binary64
  round-to-nearest-even (`roundRatF64`, `f64OfNat`, `f64Div`, `dyLt`):
  the conversion of each `u64` operand, the division, and the literals
  `1.1`/`0.9` are each correctly rounded to 53 significand bits, and
  every reachable value (quotients of nonzero `u64`s, or exact zero)
  lies far inside the normal range, so no overflow, underflow or
  subnormal handling is ever exercised and none is modelled.
* `Pubkey` (an opaque 32-byte identity only ever compared for equality)
  is modelled as `Nat`; byte strings are `List Nat`.
* The secp256k1 point-validity test performed by the external `bitcoin`
  crate inside `PublicKey::from_slice` is abstracted as an explicit
  parameter `secpValid : Bytes → Bool` of the code that calls it.
* `msg!` logging and the post-write read-back logging in
  `process_update_nav` have no observable effect and are dropped.
* Interior mutability (`RefCell` fields mutated in place) is modelled by
  returning the updated account list from each handler together with the
  result, exactly mirroring which cells each source path writes before
  returning.
-/

/-- `u64::MAX`. -/
def u64MAX : Nat := 2 ^ 64 - 1

/-- `u128::MAX`. -/
def u128MAX : Nat := 2 ^ 128 - 1

/-- 32-byte account identity, compared only for equality (`mock_sdk.rs`,
`Pubkey`). -/
abbrev Pubkey := Nat

/-- Raw byte strings (`Vec<u8>`, `[u8; N]`). -/
abbrev Bytes := List Nat

/-- `mock_sdk::ProgramError`. -/
inductive ProgramError where
  | InvalidArgument
  | InvalidInstructionData
  | InvalidAccountData
  | AccountNotFound
  | InsufficientFunds
  | MissingRequiredSignature
  | Arithmetic
  | Overflow
  | Custom (msg : String)
deriving DecidableEq, Repr

/-- `ProgramResult = Result<(), ProgramError>`. -/
abbrev ProgramResult := Except ProgramError Unit

/-- `error::OVTError` (the variants reachable from the embedded code). -/
inductive OVTError where
  | InvalidBitcoinPayment
  | InvalidNAVUpdate
  | InsufficientFunds
  | InvalidTreasuryKey
  | InvalidSupplyChange
  | UTXOVerificationFailed
deriving DecidableEq, Repr

/-- The `Debug` rendering used by `From<OVTError> for ProgramError`
(`ProgramError::Custom(format!("{:?}", e))`). -/
def OVTError.debugStr : OVTError → String
  | .InvalidBitcoinPayment => "InvalidBitcoinPayment"
  | .InvalidNAVUpdate => "InvalidNAVUpdate"
  | .InsufficientFunds => "InsufficientFunds"
  | .InvalidTreasuryKey => "InvalidTreasuryKey"
  | .InvalidSupplyChange => "InvalidSupplyChange"
  | .UTXOVerificationFailed => "UTXOVerificationFailed"

/-- `OVTError::into::<ProgramError>()`. -/
def OVTError.toProgram (e : OVTError) : ProgramError := .Custom e.debugStr

/-- Little-endian byte rendering of a machine integer, `k` bytes wide
(borsh fixed-width integer encoding). -/
def natToLeBytes : Nat → Nat → Bytes
  | 0, _ => []
  | k + 1, n => n % 256 :: natToLeBytes k (n / 256)

/-- Read a little-endian byte string back as a `Nat` (borsh fixed-width
integer decoding). -/
def leBytesToNat : Bytes → Nat
  | [] => 0
  | b :: bs => b + 256 * leBytesToNat bs

/-- `Vec::resize(space, 0)` as used by `system::create_program_account`. -/
def listResize (l : Bytes) (n : Nat) : Bytes :=
  l.take n ++ List.replicate (n - l.length) 0

/-- `OVTState` (`lib.rs`): the treasury state record. -/
structure OVTState where
  nav_sats : Nat
  treasury_pubkey_bytes : Bytes
  total_supply : Nat
  last_nav_update : Nat
deriving DecidableEq, Repr

/-- `std::mem::size_of::<OVTState>()`: three `u64` fields plus a 33-byte
array, padded to 8-byte alignment.  The value is passed to
`create_program_account` as the resize length and is immediately
overwritten by `initialize_account`'s full `set_data`, so no observable
behaviour depends on it. -/
def sizeOfOVTState : Nat := 64

/-- Borsh serialization of `OVTState`: `u64` LE, 33 raw key bytes,
`u64` LE, `u64` LE — 57 bytes. -/
def encodeState (s : OVTState) : Bytes :=
  natToLeBytes 8 s.nav_sats ++ s.treasury_pubkey_bytes ++
    natToLeBytes 8 s.total_supply ++ natToLeBytes 8 s.last_nav_update

/-- Borsh deserialization of `OVTState` via `try_from_slice`, which
fails unless the buffer is consumed exactly (57 bytes). -/
def decodeState (bs : Bytes) : Option OVTState :=
  if bs.length = 57 then
    some { nav_sats := leBytesToNat (bs.take 8)
           treasury_pubkey_bytes := (bs.drop 8).take 33
           total_supply := leBytesToNat ((bs.drop 41).take 8)
           last_nav_update := leBytesToNat ((bs.drop 49).take 8) }
  else none

/-- `OVTState::validate_nav_update` (`lib.rs` lines 53–72).  When a NAV is
already set, the only rejection is the cumulative bound against the
hardcoded constant `initial_nav = 1_000_000` ("Initial NAV from test
setup"); the `change_ratio` against the current NAV is computed solely
for a log message and never rejects.  `41.0` and `0.05` are the source's
literals; the `f64` quotient comparison is modelled exactly, in
cross-multiplied form (see the file header and `nav_bound_bridge`). -/
def OVTState.validate_nav_update (s : OVTState) (new_nav_sats : Nat) : ProgramResult :=
  if s.nav_sats > 0 then
    -- source: cumulative_ratio = new_nav_sats / initial_nav with
    -- initial_nav = 1_000_000; reject if cumulative_ratio > 41.0 or
    -- < 0.05.  `new/1000000 > 41 ↔ 41*1000000 < new` and
    -- `new/1000000 < 1/20 ↔ 20*new < 1000000` (`nav_bound_bridge`).
    if 41 * 1000000 < new_nav_sats ∨ 20 * new_nav_sats < 1000000 then
      .error OVTError.InvalidNAVUpdate.toProgram
    else .ok ()
  else .ok ()

/-- Floor of the base-2 logarithm, by fuel-bounded structural recursion
(the kernel cannot reduce well-founded definitions, so core's `log2` is
re-derived; `log2Fuel f n` is exact for every `n < 2^f`). -/
def log2Fuel : Nat → Nat → Nat
  | 0, _ => 0
  | f + 1, n => if n ≤ 1 then 0 else log2Fuel f (n / 2) + 1

/-- Floor log2, exact for all values this file manipulates (< 2^200). -/
def natLog2 (n : Nat) : Nat := log2Fuel 200 n

/-- IEEE-754 round-half-to-even of the quotient `q` remainder `r`
denominator `d` (`0 ≤ r < d`). -/
def roundHalfEven (q r d : Nat) : Nat :=
  if 2 * r < d then q
  else if d < 2 * r then q + 1
  else if q % 2 = 0 then q else q + 1

/-- Round the positive rational `num/den` to the nearest binary64
(53 significand bits, ties to even), returned as a dyadic `(m, e)` of
value `m * 2^e` (`m = 0` iff `num = 0`).  The scaling exponent `k` is
chosen so the scaled quotient lies in `(2^51, 2^53)`; one conditional
extra bit of scaling lands it in `[2^52, 2^53)`.  A rounded-up `m` of
`2^53` is left unnormalised — only the value matters for comparisons.
Exponent clamping (overflow/underflow/subnormals) never triggers for
the quotients of `u64` operands this file reaches and is omitted. -/
def roundRatF64 (num den : Nat) : Nat × Int :=
  if num = 0 ∨ den = 0 then (0, 0)
  else
    let k : Int := 52 + (natLog2 den : Int) - (natLog2 num : Int)
    let p : Nat := if 0 ≤ k then num * 2 ^ k.toNat else num
    let d : Nat := if 0 ≤ k then den else den * 2 ^ (-k).toNat
    if p / d < 2 ^ 52 then
      (roundHalfEven (p * 2 / d) (p * 2 % d) d, -(k + 1))
    else
      (roundHalfEven (p / d) (p % d) d, -k)

/-- `u64 as f64`: correctly rounded conversion (exact below `2^53`). -/
def f64OfNat (n : Nat) : Nat × Int := roundRatF64 n 1

/-- binary64 division of two finite nonnegative doubles: the real
quotient of the dyadic operands is `(a.1/b.1) * 2^(a.2-b.2)`, and
scaling by a power of two is exact, so correctly rounding `a.1/b.1`
rounds the quotient.  A zero divisor would be `+inf`; it is unreachable
here (the divisor comes from a `total_supply > 0` branch). -/
def f64Div (a b : Nat × Int) : Nat × Int :=
  if a.1 = 0 then (0, 0)
  else
    let r := roundRatF64 a.1 b.1
    (r.1, r.2 + a.2 - b.2)

/-- Exact strict comparison of two dyadic values. -/
def dyLt (a b : Nat × Int) : Bool :=
  if a.2 ≤ b.2 then a.1 < b.1 * 2 ^ (b.2 - a.2).toNat
  else a.1 * 2 ^ (a.2 - b.2).toNat < b.1

/-- The binary64 literal `1.1`: the double nearest `11/10`
(`4953959590107546 * 2^-52`, strictly above `11/10`). -/
def f64Lit11 : Nat × Int := roundRatF64 11 10

/-- The binary64 literal `0.9`: the double nearest `9/10`
(`8106479329266893 * 2^-53`, strictly above `9/10`). -/
def f64Lit09 : Nat × Int := roundRatF64 9 10

/-- `change_ratio = (new_supply as f64) / (total_supply as f64)`:
both `u64 → f64` conversions, then the binary64 division, each
correctly rounded. -/
def changeRatioF64 (new_supply total_supply : Nat) : Nat × Int :=
  f64Div (f64OfNat new_supply) (f64OfNat total_supply)

/-- `OVTState::validate_supply_change` (`lib.rs` lines 74–83): when the
current supply is positive, compute
`change_ratio = (new_supply as f64) / (total_supply as f64)` and reject
iff `change_ratio > 1.1 || change_ratio < 0.9` — the comparisons are
against the binary64 literals, on the rounded quotient, modelled
exactly by the dyadic IEEE-754 model above. -/
def OVTState.validate_supply_change (s : OVTState) (new_supply : Nat) : ProgramResult :=
  if s.total_supply > 0 then
    if dyLt f64Lit11 (changeRatioF64 new_supply s.total_supply) ∨
        dyLt (changeRatioF64 new_supply s.total_supply) f64Lit09 then
      .error OVTError.InvalidSupplyChange.toProgram
    else .ok ()
  else .ok ()

/-- `OVTState::validate_treasury`: `get_treasury_pubkey` succeeds iff the
33 stored bytes parse as a secp256k1 compressed point; the external
parser is the abstract parameter `secpValid`. -/
def OVTState.validate_treasury (secpValid : Bytes → Bool) (s : OVTState) : ProgramResult :=
  if secpValid s.treasury_pubkey_bytes then .ok ()
  else .error OVTError.InvalidTreasuryKey.toProgram

/-- The 36-byte `mock_sdk::UtxoMeta` carried (but never read by any
handler) on each account. -/
structure MockUtxo where
  txid : Bytes
  vout : Nat
deriving DecidableEq, Repr

/-- `mock_sdk::AccountInfo`.  `lamports`, `data`, `owner` are `RefCell`s
in the source; handlers receive independent copies (`RefCell::clone`
copies the contents), so plain fields model them faithfully. -/
structure AccountInfo where
  key : Pubkey
  is_signer : Bool
  is_writable : Bool
  lamports : Nat
  data : Bytes
  owner : Pubkey
  utxo : MockUtxo
deriving DecidableEq, Repr

/-- `AccountInfo::get_data::<OVTState>`: empty data and parse failures
are both `InvalidAccountData`. -/
def AccountInfo.get_data (info : AccountInfo) : Except ProgramError OVTState :=
  if info.data.isEmpty then .error .InvalidAccountData
  else
    match decodeState info.data with
    | some s => .ok s
    | none => .error .InvalidAccountData

/-- `AccountInfo::set_data::<OVTState>`: requires the writable flag and
replaces the whole data vector with the serialization. -/
def AccountInfo.set_data (info : AccountInfo) (s : OVTState) : Except ProgramError AccountInfo :=
  if info.is_writable then .ok { info with data := encodeState s }
  else .error .InvalidAccountData

/-- `mock_sdk::AccountMeta`. -/
structure AccountMeta where
  pubkey : Pubkey
  is_signer : Bool
  is_writable : Bool
deriving DecidableEq, Repr

/-- First-match lookup in an admin table (`HashMap<Pubkey, bool>`,
`get().copied().unwrap_or(false)`). -/
def adminLookup (m : List (Pubkey × Bool)) (k : Pubkey) : Bool :=
  ((m.find? (fun kv => kv.1 == k)).map (fun kv => kv.2)).getD false

/-- `mock_sdk::ProgramContext`.  The source context carries an optional
`TestClient` clone of which the program consults exactly one piece — its
`admin_accounts` table (via `ProgramContext::is_admin`) — so the handle
is modelled by that table. -/
structure ProgramContext where
  program_id : Pubkey
  accounts : List AccountInfo
  testAdmins : Option (List (Pubkey × Bool))
deriving Repr

/-- `ProgramContext::get`. -/
def ProgramContext.get (ctx : ProgramContext) (i : Nat) : Except ProgramError AccountInfo :=
  match ctx.accounts[i]? with
  | some a => .ok a
  | none => .error .AccountNotFound

/-- `ProgramContext::is_admin`: false when no test client is attached. -/
def ProgramContext.is_admin (ctx : ProgramContext) (k : Pubkey) : Bool :=
  (ctx.testAdmins.map (fun m => adminLookup m k)).getD false

/-- `OVTInstruction` (`lib.rs`). The `payment_txid` string is carried as
its UTF-8 bytes; the handler never reads it. -/
inductive OVTInstruction where
  | InitializeIx (treasury_pubkey_bytes : Bytes)
  | UpdateNAV (btc_price_sats : Nat)
  | BuybackBurn (payment_txid : Bytes) (payment_amount_sats : Nat)
deriving DecidableEq, Repr

/-- Borsh encoding of `OVTInstruction`: `u8` variant tag, then the
fields (`[u8;33]` raw; `u64` LE; `String` as `u32` LE length + bytes). -/
def encodeIx : OVTInstruction → Bytes
  | .InitializeIx k => 0 :: k
  | .UpdateNAV n => 1 :: natToLeBytes 8 n
  | .BuybackBurn txid amt => 2 :: (natToLeBytes 4 txid.length ++ txid ++ natToLeBytes 8 amt)

/-- `OVTInstruction::try_from_slice`, which must consume the buffer
exactly; any failure is surfaced as `InvalidInstructionData` through
`From<borsh::io::Error> for ProgramError`.  (UTF-8 validation of the
txid string is not modelled; the handler ignores the txid.) -/
def decodeIx (bs : Bytes) : Except ProgramError OVTInstruction :=
  match bs with
  | 0 :: rest =>
      if rest.length = 33 then .ok (.InitializeIx rest) else .error .InvalidInstructionData
  | 1 :: rest =>
      if rest.length = 8 then .ok (.UpdateNAV (leBytesToNat rest)) else .error .InvalidInstructionData
  | 2 :: rest =>
      if 4 ≤ rest.length then
        let len := leBytesToNat (rest.take 4)
        let rest2 := rest.drop 4
        if len + 8 = rest2.length then
          .ok (.BuybackBurn (rest2.take len) (leBytesToNat (rest2.drop len)))
        else .error .InvalidInstructionData
      else .error .InvalidInstructionData
  | _ => .error .InvalidInstructionData

/-- A handler's outcome: the (possibly partially) mutated context
accounts, plus the `ProgramResult`. -/
abbrev HandlerResult := List AccountInfo × ProgramResult

/-- `OVTProgram::process_initialize` (`lib.rs` lines 128–156):
signer check, then `create_program_account` (resize + give ownership to
the program), then `initialize_account` writes the zeroed state carrying
the supplied treasury key.  No already-initialized check exists: prior
account contents are unconditionally destroyed. -/
def OVTProgram.process_initialize (ctx : ProgramContext) (treasury_pubkey_bytes : Bytes) :
    HandlerResult :=
  match ctx.get 0 with
  | .error e => (ctx.accounts, .error e)
  | .ok state_info =>
  match ctx.get 1 with
  | .error e => (ctx.accounts, .error e)
  | .ok authority_info =>
  match ctx.get 2 with
  | .error e => (ctx.accounts, .error e)
  | .ok _system_program =>
  if ¬ authority_info.is_signer then (ctx.accounts, .error .MissingRequiredSignature)
  else
    -- system::create_program_account: resize the data, set the owner
    let state_info1 := { state_info with
                         data := listResize state_info.data sizeOfOVTState
                         owner := ctx.program_id }
    let accounts1 := ctx.accounts.set 0 state_info1
    let state : OVTState := { nav_sats := 0
                              treasury_pubkey_bytes := treasury_pubkey_bytes
                              total_supply := 0
                              last_nav_update := 0 }
    -- system::initialize_account = set_data
    match state_info1.set_data state with
    | .ok state_info2 => (accounts1.set 0 state_info2, .ok ())
    | .error e => (accounts1, .error e)

/-- `OVTProgram::process_update_nav` (`lib.rs` lines 158–194): signer
check, read state, `validate_nav_update`, then write the new NAV with
the mock timestamp `1000`.  The post-write read-back only logs. -/
def OVTProgram.process_update_nav (ctx : ProgramContext) (btc_price_sats : Nat) :
    HandlerResult :=
  match ctx.get 0 with
  | .error e => (ctx.accounts, .error e)
  | .ok state_info =>
  match ctx.get 1 with
  | .error e => (ctx.accounts, .error e)
  | .ok authority_info =>
  if ¬ authority_info.is_signer then (ctx.accounts, .error .MissingRequiredSignature)
  else
  match state_info.get_data with
  | .error e => (ctx.accounts, .error e)
  | .ok state =>
  match state.validate_nav_update btc_price_sats with
  | .error e => (ctx.accounts, .error e)
  | .ok _ =>
  let state1 := { state with nav_sats := btc_price_sats, last_nav_update := 1000 }
  match state_info.set_data state1 with
  | .ok state_info1 => (ctx.accounts.set 0 state_info1, .ok ())
  | .error e => (ctx.accounts, .error e)

/-- `checked_mul` on `u128`. -/
def checkedMulU128 (a b : Nat) : Option Nat :=
  if a * b ≤ u128MAX then some (a * b) else none

/-- `checked_div` on `u128`. -/
def checkedDivU128 (a b : Nat) : Option Nat :=
  if b = 0 then none else some (a / b)

/-- `checked_sub` on `u64`. -/
def checkedSubU64 (a b : Nat) : Option Nat :=
  if b ≤ a then some (a - b) else none

/-- `OVTProgram::process_buyback_burn` (`lib.rs` lines 196–243): signer
check; the `cfg(test)` admin check against the context's test client;
read state; `validate_treasury`; the 128-bit burn calculation guarded by
`nav_sats > 0`; checked subtraction; `validate_supply_change` on the old
state; write the decremented supply.  The supplied txid is ignored, and
no UTXO verification of any kind is performed. -/
def OVTProgram.process_buyback_burn (secpValid : Bytes → Bool) (ctx : ProgramContext)
    (_payment_txid : Bytes) (payment_amount_sats : Nat) : HandlerResult :=
  match ctx.get 0 with
  | .error e => (ctx.accounts, .error e)
  | .ok state_info =>
  match ctx.get 1 with
  | .error e => (ctx.accounts, .error e)
  | .ok authority_info =>
  if ¬ authority_info.is_signer then (ctx.accounts, .error .MissingRequiredSignature)
  else
  if ¬ ctx.is_admin authority_info.key then
    (ctx.accounts, .error (.Custom "Not an admin account"))
  else
  match state_info.get_data with
  | .error e => (ctx.accounts, .error e)
  | .ok state =>
  match state.validate_treasury secpValid with
  | .error e => (ctx.accounts, .error e)
  | .ok _ =>
  if state.nav_sats > 0 then
    let burn? := ((checkedMulU128 payment_amount_sats state.total_supply).bind
        (fun product => checkedDivU128 product state.nav_sats)).bind
        (fun result => if result ≤ u64MAX then some result else none)
    match burn? with
    | none => (ctx.accounts, .error OVTError.InvalidSupplyChange.toProgram)
    | some ovt_to_burn =>
    match checkedSubU64 state.total_supply ovt_to_burn with
    | none => (ctx.accounts, .error OVTError.InvalidSupplyChange.toProgram)
    | some new_supply =>
    match state.validate_supply_change new_supply with
    | .error e => (ctx.accounts, .error e)
    | .ok _ =>
    let new_state := { state with total_supply := new_supply }
    match state_info.set_data new_state with
    | .ok state_info1 => (ctx.accounts.set 0 state_info1, .ok ())
    | .error e => (ctx.accounts, .error e)
  else (ctx.accounts, .error OVTError.InvalidNAVUpdate.toProgram)

/-- `OVTProgram::process_instruction`: decode, then route. -/
def OVTProgram.process_instruction (secpValid : Bytes → Bool) (ctx : ProgramContext)
    (data : Bytes) : HandlerResult :=
  match decodeIx data with
  | .error e => (ctx.accounts, .error e)
  | .ok (.InitializeIx k) => OVTProgram.process_initialize ctx k
  | .ok (.UpdateNAV n) => OVTProgram.process_update_nav ctx n
  | .ok (.BuybackBurn txid amt) => OVTProgram.process_buyback_burn secpValid ctx txid amt

/-- `test_utils::AdminAction`: the per-action signature accumulator. -/
structure AdminAction where
  action_type : String
  description : String
  signatures : List String
  signed_by : List Pubkey
deriving DecidableEq, Repr

/-- `test_utils::TestClient`: the persistent store.  `accounts` and
`admin_accounts` are `HashMap`s keyed by `Pubkey` (unique keys, modelled
as first-match association lists); `pending_actions` is a `Vec`. -/
structure TestClient where
  accounts : List (Pubkey × AccountInfo)
  admin_accounts : List (Pubkey × Bool)
  pending_actions : List AdminAction
  required_signatures : Nat
  total_admins : Nat
deriving DecidableEq, Repr

/-- `TestClient::new()`. -/
def TestClient.new : TestClient :=
  { accounts := [], admin_accounts := [], pending_actions := []
    required_signatures := 3, total_admins := 5 }

/-- `TestClient::is_admin`. -/
def TestClient.is_admin (c : TestClient) (k : Pubkey) : Bool :=
  adminLookup c.admin_accounts k

/-- `pending_actions.iter().find(|a| a.action_type == ty)`. -/
def findAction (actions : List AdminAction) (ty : String) : Option AdminAction :=
  actions.find? (fun a => a.action_type == ty)

/-- `iter_mut().find(..)` followed by pushing onto the found action's
`signatures` and `signed_by` vectors: update the first matching action
in place. -/
def pushSignature (actions : List AdminAction) (ty : String) (sig : String) (admin : Pubkey) :
    List AdminAction :=
  match actions with
  | [] => []
  | a :: rest =>
      if a.action_type == ty then
        { a with signatures := a.signatures ++ [sig], signed_by := a.signed_by ++ [admin] } :: rest
      else a :: pushSignature rest ty sig admin

/-- `pending_actions.last()`-based authorization flag computed at the end
of `sign_action`: the length of the most recently *created* action's
signature list against the threshold — not the action just signed. -/
def lastActionFlag (actions : List AdminAction) (required : Nat) : Bool :=
  match actions.getLast? with
  | some a => decide (required ≤ a.signatures.length)
  | none => false

/-- `TestClient::sign_action` (`mock_sdk.rs` lines 458–498): admin
membership check, duplicate-signer check, record the signature (creating
the action on first use of its label, appended at the end of the vector),
then report whether `pending_actions.last()` has reached the threshold.
The pair is (client after the call, returned `Result<bool>`). -/
def TestClient.sign_action (c : TestClient) (admin_key : Pubkey)
    (action_type description signature : String) :
    TestClient × Except ProgramError Bool :=
  if ¬ c.is_admin admin_key then (c, .error (.Custom "Not an admin"))
  else
    match findAction c.pending_actions action_type with
    | some action =>
        if admin_key ∈ action.signed_by then (c, .error (.Custom "Admin already signed"))
        else
          let actions := pushSignature c.pending_actions action_type signature admin_key
          ({ c with pending_actions := actions },
           .ok (lastActionFlag actions c.required_signatures))
    | none =>
        let actions := c.pending_actions ++
          [{ action_type := action_type, description := description
             signatures := [signature], signed_by := [admin_key] }]
        ({ c with pending_actions := actions },
         .ok (lastActionFlag actions c.required_signatures))

/-- `TestClient::verify_action` (`mock_sdk.rs` lines 500–521): false when
fewer than `required_signatures` signatures are provided or the action is
unknown; otherwise true iff every provided signature (with multiplicity
ignored — repeats are fine) occurs in the recorded list. -/
def TestClient.verify_action (c : TestClient) (action_type : String) (sigs : List String) :
    Except ProgramError Bool :=
  if sigs.length < c.required_signatures then .ok false
  else
    match findAction c.pending_actions action_type with
    | some action => .ok (sigs.all (fun s => action.signatures.contains s))
    | none => .ok false

/-- Account lookup in the client's `HashMap`. -/
def lookupAccount (m : List (Pubkey × AccountInfo)) (k : Pubkey) : Option AccountInfo :=
  ((m.find? (fun kv => kv.1 == k)).map (fun kv => kv.2))

/-- The write-back `process_transaction` performs for one committed
account: only `lamports`, `data`, `owner` and `utxo` of the stored entry
are replaced (key and stored flags stay). -/
def commitAccount (m : List (Pubkey × AccountInfo)) (k : Pubkey) (info : AccountInfo) :
    List (Pubkey × AccountInfo) :=
  match m with
  | [] => []
  | kv :: rest =>
      if kv.1 == k then
        (kv.1, { kv.2 with lamports := info.lamports, data := info.data
                           owner := info.owner, utxo := info.utxo }) :: rest
      else kv :: commitAccount rest k info

/-- Build the per-instruction `AccountInfo` copies from the metas:
missing keys abort with `AccountNotFound`; signer/writable flags come
from the meta, everything else from the stored account (whose `RefCell`s
are content-cloned, hence independent copies). -/
def buildCtxAccounts (m : List (Pubkey × AccountInfo)) :
    List AccountMeta → Except ProgramError (List AccountInfo)
  | [] => .ok []
  | meta :: rest =>
      match lookupAccount m meta.pubkey with
      | none => .error .AccountNotFound
      | some acc =>
          match buildCtxAccounts m rest with
          | .error e => .error e
          | .ok tl =>
              .ok ({ key := acc.key, is_signer := meta.is_signer
                     is_writable := meta.is_writable, lamports := acc.lamports
                     data := acc.data, owner := acc.owner, utxo := acc.utxo } :: tl)

/-- `TestClient::process_transaction` (`mock_sdk.rs`): build the context
copies, run the program, and only on success write the context accounts
back into the store — pairing the context accounts positionally with the
list of *writable* metas' keys (`zip` truncates at the shorter list) and
filtering by the account's writable flag, exactly as the source does. -/
def TestClient.process_transaction (secpValid : Bytes → Bool) (c : TestClient)
    (program_id : Pubkey) (metas : List AccountMeta) (instruction_data : Bytes) :
    TestClient × ProgramResult :=
  match buildCtxAccounts c.accounts metas with
  | .error e => (c, .error e)
  | .ok ctxAccounts =>
      let original_keys := (metas.filter (fun m => m.is_writable)).map (fun m => m.pubkey)
      let ctx : ProgramContext :=
        { program_id := program_id, accounts := ctxAccounts
          testAdmins := some c.admin_accounts }
      match OVTProgram.process_instruction secpValid ctx instruction_data with
      | (accounts1, .ok _) =>
          let pairs := (accounts1.zip original_keys).filter (fun p => p.1.is_writable)
          let newMap := pairs.foldl (fun m p => commitAccount m p.2 p.1) c.accounts
          ({ c with accounts := newMap }, .ok ())
      | (_, .error e) => (c, .error e)

/-- `UtxoMeta` as declared in `src/program/src/utxo.rs` — the UTXO-claim
record of the spec, carrying an amount (`value` in the `ovt-program`
snapshot's field naming), the owning script bytes and a confirmation
count. -/
structure UtxoMeta where
  txid : Bytes
  vout : Nat
  amount : Nat
  script_pubkey : Bytes
  confirmations : Nat
deriving DecidableEq, Repr

/-- `BitcoinPayment` (`utxo.rs`). -/
structure BitcoinPayment where
  txid : Bytes
  amount_sats : Nat
  utxo : UtxoMeta
deriving DecidableEq, Repr

/-- `verify_bitcoin_payment` from `src/ovt-program/src/utxo.rs` lines
15–37 (the `src/program` copy is a stub returning `Ok(())`): owner check
first (`InvalidBitcoinPayment`), then amount check (`InsufficientFunds`,
via `From<OVTError>`... the snapshot converts through `OVTError`), and
no confirmation check of any kind.  Pure: performs no mutation. -/
def verify_bitcoin_payment (utxo : UtxoMeta) (expected_amount : Nat)
    (treasury_pubkey : Bytes) : Except ProgramError BitcoinPayment :=
  if utxo.script_pubkey ≠ treasury_pubkey then
    .error OVTError.InvalidBitcoinPayment.toProgram
  else if utxo.amount < expected_amount then
    .error OVTError.InsufficientFunds.toProgram
  else
    .ok { txid := utxo.txid, amount_sats := utxo.amount, utxo := utxo }

/-- `Except` carries no `DecidableEq` instance in core; results of the
embedded fallible operations need one so that concrete runs can be
checked by `decide`. -/
instance {ε α : Type} [DecidableEq ε] [DecidableEq α] : DecidableEq (Except ε α) := fun a b =>
  match a, b with
  | .ok x, .ok y =>
      if h : x = y then isTrue (by rw [h]) else isFalse (fun hh => by cases hh; exact h rfl)
  | .error x, .error y =>
      if h : x = y then isTrue (by rw [h]) else isFalse (fun hh => by cases hh; exact h rfl)
  | .ok _, .error _ => isFalse (fun hh => by cases hh)
  | .error _, .ok _ => isFalse (fun hh => by cases hh)

/-- The all-zero 33-byte treasury key `[0u8; 33]` used by the spec's
scenario. -/
def key0 : Bytes := List.replicate 33 0

/-- A secp256k1-parse oracle that rejects every byte string. -/
def secpNone : Bytes → Bool := fun _ => false

/-- A secp256k1-parse oracle that accepts every byte string. -/
def secpAll : Bytes → Bool := fun _ => true

/-- The empty 36-byte mock UTXO every account starts with. -/
def mockUtxo0 : MockUtxo := { txid := List.replicate 32 0, vout := 0 }

/-- A freshly created writable program account holding `d`
(`TestClient::create_account` allocates `vec![0; 1024]`). -/
def stateAcct (d : Bytes) : AccountInfo :=
  { key := 1, is_signer := false, is_writable := true, lamports := 0, data := d, owner := 0,
    utxo := mockUtxo0 }

/-- An admin-style authority account (`TestClient::create_admin_account`). -/
def authAcct : AccountInfo :=
  { key := 2, is_signer := true, is_writable := false, lamports := 1000000, data := [], owner := 0,
    utxo := mockUtxo0 }

/-- The system-program placeholder account the tests install. -/
def sysAcct : AccountInfo :=
  { key := 3, is_signer := false, is_writable := false, lamports := 1, data := [], owner := 0,
    utxo := mockUtxo0 }

/-- A test client holding the three accounts of the NAV scenario, one
admin, and no pending actions. -/
def scenClient (d : Bytes) : TestClient :=
  { accounts := [(1, stateAcct d), (2, authAcct), (3, sysAcct)],
    admin_accounts := [(2, true)], pending_actions := [],
    required_signatures := 3, total_admins := 5 }

/-- The account metas the tests pass for `Initialize`:
`AccountMeta::new(state, true)`, `new_readonly(admin, true)`,
`new_readonly(system, false)`. -/
def initMetas : List AccountMeta :=
  [⟨1, false, true⟩, ⟨2, true, false⟩, ⟨3, false, false⟩]

/-- The account metas the tests pass for `UpdateNAV` and `BuybackBurn`. -/
def navMetas : List AccountMeta := [⟨1, false, true⟩, ⟨2, true, false⟩]

/-- Serialized `UpdateNAV` payload. -/
def navIx (n : Nat) : Bytes := encodeIx (.UpdateNAV n)

/-- Scenario start: a fresh 1024-byte state account. -/
def c2r0 : TestClient := scenClient (List.replicate 1024 0)

/-- Scenario after `Initialize([0u8; 33])`. -/
def c2rInit : TestClient :=
  (TestClient.process_transaction secpNone c2r0 9 initMetas (encodeIx (.InitializeIx key0))).1

/-- Scenario after the first `UpdateNAV(1_000_000)`. -/
def c2r1 : TestClient :=
  (TestClient.process_transaction secpNone c2rInit 9 navMetas (navIx 1000000)).1

/-- Scenario after the second `UpdateNAV(21_000_000)`. -/
def c2r2 : TestClient :=
  (TestClient.process_transaction secpNone c2r1 9 navMetas (navIx 21000000)).1

/-- Alternative scenario: first `UpdateNAV` establishes a genesis NAV of
`500_000` instead of `1_000_000`. -/
def c2x1 : TestClient :=
  (TestClient.process_transaction secpNone c2rInit 9 navMetas (navIx 500000)).1

/-- The client of the C3 counterexample: live treasury state, one admin,
and an empty pending-action store (no signature was ever recorded). -/
def c3Client : TestClient := scenClient (encodeState ⟨1000000, key0, 1000000, 0⟩)

/-- Handler-level state account holding a live treasury state. -/
def c5StateInfo : AccountInfo :=
  { key := 1, is_signer := false, is_writable := true, lamports := 0,
    data := encodeState ⟨1000000, key0, 1000000, 0⟩, owner := 9, utxo := mockUtxo0 }

/-- Handler-level signing authority account. -/
def c5AuthInfo : AccountInfo :=
  { key := 2, is_signer := true, is_writable := false, lamports := 1000000, data := [], owner := 0,
    utxo := mockUtxo0 }

/-- Handler-level context for `BuybackBurn`: state, authority (an
admin). -/
def c5Ctx : ProgramContext :=
  { program_id := 9, accounts := [c5StateInfo, c5AuthInfo], testAdmins := some [(2, true)] }

/-- A UTXO claim that fails every verification clause: owner script
differs from the treasury key, zero amount, zero confirmations. -/
def c4Claim : UtxoMeta :=
  { txid := List.replicate 32 1, vout := 0, amount := 0, script_pubkey := List.replicate 33 9,
    confirmations := 0 }

/-- Client with one admin (key 1) and no pending actions. -/
def c7Client0 : TestClient :=
  { accounts := [], admin_accounts := [(1, true)], pending_actions := [],
    required_signatures := 3, total_admins := 5 }

/-- `c7Client0` after admin 1 signs action "T" once with signature "s". -/
def c7Client1 : TestClient := (TestClient.sign_action c7Client0 1 "T" "d" "s").1

/-- Client with the five admins of the protocol and no pending actions. -/
def c10Client0 : TestClient :=
  { accounts := [], admin_accounts := [(1, true), (2, true), (3, true), (4, true), (5, true)],
    pending_actions := [], required_signatures := 3, total_admins := 5 }

/-- Sequence A: admins 1 and 2 sign action "A", then admin 4 creates
action "B"; action "B" is now the most recently created pending action. -/
def c10A3 : TestClient :=
  (TestClient.sign_action
    (TestClient.sign_action
      (TestClient.sign_action c10Client0 1 "A" "dA" "s1").1 2 "A" "dA" "s2").1 4 "B" "dB" "t1").1

/-- Sequence B: admin 1 signs action "A", then admins 2, 3, 4 authorize
action "B" (3 signatures); action "B" is the most recently created
pending action and is authorized. -/
def c10B4 : TestClient :=
  (TestClient.sign_action
    (TestClient.sign_action
      (TestClient.sign_action
        (TestClient.sign_action c10Client0 1 "A" "dA" "s1").1 2 "B" "dB" "t1").1
      3 "B" "dB" "t2").1 4 "B" "dB" "t3").1

/-- The integer test used in `validate_nav_update` is exactly the
source's rational comparison `new/1_000_000 > 41.0 ∨ new/1_000_000 <
0.05`. -/
theorem nav_bound_bridge (n : Nat) :
    (41 * 1000000 < n ∨ 20 * n < 1000000) ↔
      (41 < (n : ℚ) / 1000000 ∨ (n : ℚ) / 1000000 < 1 / 20) := by
  have h6 : (0 : ℚ) < 1000000 := by norm_num
  rw [lt_div_iff₀ h6, div_lt_iff₀ h6]
  constructor
  · rintro (h | h)
    · left
      calc (41 : ℚ) * 1000000 = ((41 * 1000000 : Nat) : ℚ) := by push_cast; ring
        _ < (n : ℚ) := by exact_mod_cast h
    · right
      have hn : n < 50000 := by omega
      calc (n : ℚ) < ((50000 : Nat) : ℚ) := by exact_mod_cast hn
        _ = 1 / 20 * 1000000 := by norm_num
  · rintro (h | h)
    · left
      have : ((41 * 1000000 : Nat) : ℚ) < (n : ℚ) := by push_cast; linarith
      exact_mod_cast this
    · right
      have : (n : ℚ) < ((50000 : Nat) : ℚ) := by push_cast; linarith
      have hn : n < 50000 := by exact_mod_cast this
      omega

/-- C1 (counterexample): the claimed step-ratio bound does not exist.
With current `nav_sats = 1_000_000`, the update to `5_000_001` has a
step ratio strictly above `5.0` — outside the claimed hard bound
`[0.2, 5.0]`, so the claim requires rejection with `InvalidNAVUpdate` —
yet `validate_nav_update` accepts it: the code's only rejection is the
cumulative bound against the hardcoded `1_000_000` baseline. -/
theorem nav_step_bound_counterexample :
    ¬ ((5000001 : ℚ) / 1000000 ≤ 5) ∧
    OVTState.validate_nav_update ⟨1000000, key0, 1000000, 0⟩ 5000001 = .ok () := by
  constructor
  · intro h
    rw [div_le_iff₀ (by norm_num : (0 : ℚ) < 1000000)] at h
    norm_num at h
  · decide

/-- C1 (amended): `validate_nav_update` enforces no step-ratio bound at
all.  With current `nav_sats > 0` it accepts exactly when
`candidate / 1_000_000` (the hardcoded baseline, not the current NAV)
lies within `[0.05, 41.0]`, rejecting with `InvalidNAVUpdate`
otherwise; in particular, from `1_000_000` both `5_000_000` and
`5_000_001` are accepted. -/
theorem nav_guard_hardcoded_baseline (s : OVTState) (n : Nat) (h : 0 < s.nav_sats) :
    (OVTState.validate_nav_update s n = .ok () ↔
      (1 / 20 : ℚ) ≤ (n : ℚ) / 1000000 ∧ (n : ℚ) / 1000000 ≤ 41) ∧
    (OVTState.validate_nav_update s n = .ok () ∨
      OVTState.validate_nav_update s n = .error (OVTError.InvalidNAVUpdate.toProgram)) := by
  unfold OVTState.validate_nav_update
  rw [if_pos h]
  by_cases h2 : (41 * 1000000 < n ∨ 20 * n < 1000000)
  · rw [if_pos h2]
    constructor
    · constructor
      · intro hok
        exact absurd hok (by simp)
      · rintro ⟨ha, hb⟩
        rcases (nav_bound_bridge n).mp h2 with h3 | h3 <;> linarith
    · right
      rfl
  · rw [if_neg h2]
    refine ⟨⟨fun _ => ?_, fun _ => rfl⟩, Or.inl rfl⟩
    have h3 : ¬ (41 < (n : ℚ) / 1000000 ∨ (n : ℚ) / 1000000 < 1 / 20) :=
      fun hc => h2 ((nav_bound_bridge n).mpr hc)
    push_neg at h3
    exact ⟨h3.2, h3.1⟩

/-- C1 (witness): the amended characterization applied at the concrete
boundary input — from `1_000_000`, the update to `5_000_000` is
accepted. -/
theorem nav_guard_hardcoded_baseline_witness :
    OVTState.validate_nav_update ⟨1000000, key0, 1000000, 0⟩ 5000000 = .ok () :=
  (nav_guard_hardcoded_baseline ⟨1000000, key0, 1000000, 0⟩ 5000000 (by decide)).1.mpr
    (by norm_num)

/-- C4 (counterexample): `process_buyback_burn` commits a supply
mutation without verifying any UTXO claim at all.  The supplied claim
has the wrong owner script, zero amount and zero confirmations — the
repository's own verifier rejects it outright — yet the instruction
succeeds and burns `100_000` OVT. -/
theorem buyback_skips_utxo_verification_counterexample :
    verify_bitcoin_payment c4Claim 100000 key0 =
      .error (OVTError.InvalidBitcoinPayment.toProgram) ∧
    c4Claim.confirmations = 0 ∧ c4Claim.amount = 0 ∧
    (OVTProgram.process_buyback_burn secpAll c5Ctx (List.replicate 32 1) 100000).2 = .ok () ∧
    ((OVTProgram.process_buyback_burn secpAll c5Ctx (List.replicate 32 1) 100000).1[0]?).map
        (fun a => decodeState a.data) = some (some ⟨1000000, key0, 900000, 0⟩) := by
  refine ⟨by decide, rfl, rfl, by decide, by decide⟩

/-- C4 (amended): the repository's standalone verifier
`verify_bitcoin_payment` — which `process_buyback_burn` never calls —
checks, in order: (1) owner script equals the treasury key, else
`InvalidBitcoinPayment` regardless of amount; (2) amount at least the
expected minimum, else `InsufficientFunds`; there is no confirmation
check; on success it returns a `BitcoinPayment` carrying the txid,
amount and original claim without mutating anything. -/
theorem utxo_verifier_contract (utxo : UtxoMeta) (expected : Nat) (key : Bytes) :
    (utxo.script_pubkey ≠ key →
      verify_bitcoin_payment utxo expected key =
        .error (OVTError.InvalidBitcoinPayment.toProgram)) ∧
    (utxo.script_pubkey = key → utxo.amount < expected →
      verify_bitcoin_payment utxo expected key =
        .error (OVTError.InsufficientFunds.toProgram)) ∧
    (utxo.script_pubkey = key → expected ≤ utxo.amount →
      verify_bitcoin_payment utxo expected key = .ok ⟨utxo.txid, utxo.amount, utxo⟩) := by
  unfold verify_bitcoin_payment
  refine ⟨fun h => ?_, fun h h2 => ?_, fun h h2 => ?_⟩
  · rw [if_pos h]
  · rw [if_neg (fun hne => hne h), if_pos h2]
  · rw [if_neg (fun hne => hne h), if_neg (Nat.not_lt.mpr h2)]

/-- C4 (witness): the verifier contract applied to a concrete matching
claim with sufficient amount. -/
theorem utxo_verifier_contract_witness :
    verify_bitcoin_payment ⟨List.replicate 32 2, 0, 5, key0, 1⟩ 3 key0 =
      .ok ⟨List.replicate 32 2, 5, ⟨List.replicate 32 2, 0, 5, key0, 1⟩⟩ :=
  (utxo_verifier_contract ⟨List.replicate 32 2, 0, 5, key0, 1⟩ 3 key0).2.2 rfl (by decide)

/-- C2 (counterexample): the cumulative bound is not relative to the
genesis NAV.  Starting from the initialized state, the first update
establishes a genesis NAV of `500_000`; the subsequent update to
`30_000_000` is 60× that genesis baseline — outside the claimed
cumulative band `[0.05, 41.0]`, so the claim requires rejection — yet
it succeeds, because the code divides by the hardcoded constant
`1_000_000` instead of the recorded genesis NAV. -/
theorem nav_genesis_baseline_counterexample :
    (TestClient.process_transaction secpNone c2rInit 9 navMetas (navIx 500000)).2 = .ok () ∧
    41 < (30000000 : ℚ) / 500000 ∧
    (TestClient.process_transaction secpNone c2x1 9 navMetas (navIx 30000000)).2 = .ok () := by
  refine ⟨by decide, ?_, by decide⟩
  rw [lt_div_iff₀ (by norm_num : (0 : ℚ) < 500000)]
  norm_num

/-- C2 (amended): the cumulative drift bound divides the candidate by
the fixed constant `1_000_000`, not by the recorded genesis NAV.  With
`nav_sats = 0` every update is accepted unconditionally; with
`nav_sats > 0` an update is rejected with `InvalidNAVUpdate` exactly
when `candidate / 1_000_000` falls strictly outside `[0.05, 41.0]`.
The spec's scenario, whose genesis NAV happens to equal the constant,
behaves as claimed: after `Initialize` (`nav_sats = 0`) with treasury
key `[0u8; 33]`, updating to `1_000_000` succeeds, then to `21_000_000`
succeeds, and a further update to `42_000_000` fails. -/
theorem nav_cumulative_fixed_constant :
    (∀ (s : OVTState) (n : Nat), s.nav_sats = 0 →
      OVTState.validate_nav_update s n = .ok ()) ∧
    (∀ (s : OVTState) (n : Nat), 0 < s.nav_sats →
      (OVTState.validate_nav_update s n = .error (OVTError.InvalidNAVUpdate.toProgram) ↔
        ((n : ℚ) / 1000000 < 1 / 20 ∨ 41 < (n : ℚ) / 1000000))) ∧
    ((TestClient.process_transaction secpNone c2r0 9 initMetas
        (encodeIx (.InitializeIx key0))).2 = .ok () ∧
     (lookupAccount c2rInit.accounts 1).map (fun a => decodeState a.data) =
        some (some ⟨0, key0, 0, 0⟩) ∧
     (TestClient.process_transaction secpNone c2rInit 9 navMetas (navIx 1000000)).2 = .ok () ∧
     (TestClient.process_transaction secpNone c2r1 9 navMetas (navIx 21000000)).2 = .ok () ∧
     (TestClient.process_transaction secpNone c2r2 9 navMetas (navIx 42000000)).2 =
        .error (OVTError.InvalidNAVUpdate.toProgram)) := by
  refine ⟨?_, ?_, by decide, by decide, by decide, by decide, by decide⟩
  · intro s n hz
    unfold OVTState.validate_nav_update
    rw [if_neg (by omega)]
  · intro s n h
    unfold OVTState.validate_nav_update
    rw [if_pos h]
    by_cases h2 : (41 * 1000000 < n ∨ 20 * n < 1000000)
    · rw [if_pos h2]
      exact ⟨fun _ => ((nav_bound_bridge n).mp h2).symm, fun _ => rfl⟩
    · rw [if_neg h2]
      constructor
      · intro hok
        exact absurd hok (by simp)
      · intro hc
        exact absurd ((nav_bound_bridge n).mpr hc.symm) h2

/-- C2 (witness): the amended characterization at concrete inputs — a
zero-NAV state accepts any update, and a positive-NAV state rejects
`42_000_000` (42× the fixed constant). -/
theorem nav_cumulative_fixed_constant_witness :
    OVTState.validate_nav_update ⟨0, key0, 0, 0⟩ 123456789 = .ok () ∧
    OVTState.validate_nav_update ⟨1000000, key0, 1000000, 0⟩ 42000000 =
      .error (OVTError.InvalidNAVUpdate.toProgram) := by
  constructor
  · exact nav_cumulative_fixed_constant.1 ⟨0, key0, 0, 0⟩ 123456789 rfl
  · refine (nav_cumulative_fixed_constant.2.1 ⟨1000000, key0, 1000000, 0⟩ 42000000
      (by decide)).mpr ?_
    right
    rw [lt_div_iff₀ (by norm_num : (0 : ℚ) < 1000000)]
    norm_num

/-- C3 (counterexample): `process_update_nav` commits a treasury-state
mutation through the harness although the pending-action store is empty
— not a single admin signature was ever recorded, and `verify_action`
was never consulted.  The authority's signer flag alone suffices. -/
theorem handlers_skip_multisig_counterexample :
    c3Client.pending_actions = [] ∧
    (TestClient.process_transaction secpNone c3Client 9 navMetas (navIx 2000000)).2 = .ok () ∧
    (lookupAccount (TestClient.process_transaction secpNone c3Client 9 navMetas
        (navIx 2000000)).1.accounts 1).map (fun a => decodeState a.data) =
      some (some ⟨2000000, key0, 1000000, 1000⟩) := by
  refine ⟨rfl, by decide, by decide⟩

/-- C3 (amended): neither handler calls the authorizer.  Instruction
processing never consults the pending-action store: its outcome and the
committed accounts are identical for any two clients differing only in
`pending_actions`, and the store itself passes through unchanged.
`process_update_nav` demands only the authority's signer flag, and
`process_buyback_burn` additionally (in the test build) that the
authority key is in the admin table; `verify_action` exists but is
invoked only by the external test code before it submits a
transaction, so state mutations commit regardless of recorded
signatures. -/
theorem handlers_ignore_pending_actions (secp : Bytes → Bool)
    (acc : List (Pubkey × AccountInfo)) (adm : List (Pubkey × Bool))
    (p p' : List AdminAction) (r t : Nat) (pid : Pubkey)
    (metas : List AccountMeta) (idata : Bytes) :
    (TestClient.process_transaction secp ⟨acc, adm, p, r, t⟩ pid metas idata).2 =
      (TestClient.process_transaction secp ⟨acc, adm, p', r, t⟩ pid metas idata).2 ∧
    (TestClient.process_transaction secp ⟨acc, adm, p, r, t⟩ pid metas idata).1.accounts =
      (TestClient.process_transaction secp ⟨acc, adm, p', r, t⟩ pid metas idata).1.accounts ∧
    (TestClient.process_transaction secp ⟨acc, adm, p, r, t⟩ pid metas idata).1.pending_actions
      = p := by
  unfold TestClient.process_transaction
  dsimp only
  cases h : buildCtxAccounts acc metas with
  | error e => simp
  | ok l =>
      cases h2 : OVTProgram.process_instruction secp
          { program_id := pid, accounts := l, testAdmins := some adm } idata with
      | mk a res =>
          cases res with
          | ok u => simp [h2]
          | error e => simp [h2]

/-- C8: instructions are all-or-nothing against the persistent store.
Whenever `process_transaction` returns an error — malformed payload,
missing account, missing signer, guard or verifier rejection, or
arithmetic failure — the returned client is exactly the input client:
account data, admin table and pending-action bookkeeping are untouched,
because context accounts are independent copies and the write-back runs
only on success. -/
theorem rejection_leaves_client_unchanged (secp : Bytes → Bool) (c : TestClient)
    (pid : Pubkey) (metas : List AccountMeta) (idata : Bytes) (e : ProgramError)
    (h : (TestClient.process_transaction secp c pid metas idata).2 = .error e) :
    (TestClient.process_transaction secp c pid metas idata).1 = c := by
  unfold TestClient.process_transaction at h ⊢
  cases h1 : buildCtxAccounts c.accounts metas with
  | error e2 => simp [h1]
  | ok l =>
      rw [h1] at h
      dsimp only at h ⊢
      cases h2 : OVTProgram.process_instruction secp
          { program_id := pid, accounts := l, testAdmins := some c.admin_accounts } idata with
      | mk a res =>
          rw [h2] at h
          cases res with
          | ok u => simp at h
          | error e3 => simp

/-- C8 (witness): a malformed (empty) payload is rejected with
`InvalidInstructionData` and leaves a fresh client unchanged. -/
theorem rejection_leaves_client_unchanged_witness :
    (TestClient.process_transaction secpAll TestClient.new 0 [] []).1 = TestClient.new :=
  rejection_leaves_client_unchanged secpAll TestClient.new 0 [] []
    ProgramError.InvalidInstructionData (by decide)

/-- C9: `process_initialize` performs no already-initialized check.
For any prior treasury state `s` — including live state with nonzero
`nav_sats` and `total_supply` — an `Initialize` whose authority meta
carries the signer flag succeeds, reallocates the account to the
program, and overwrites the stored data with
`nav_sats = 0, total_supply = 0, last_nav_update = 0` and the supplied
treasury key, silently destroying `s`. -/
theorem initialize_overwrites_live_state (s : OVTState) :
    TestClient.process_transaction secpNone (scenClient (encodeState s)) 9 initMetas
        (encodeIx (.InitializeIx key0)) =
      ({ scenClient (encodeState s) with
           accounts := [(1, { stateAcct (encodeState s) with
                              data := encodeState ⟨0, key0, 0, 0⟩, owner := 9 }),
                        (2, authAcct), (3, sysAcct)] }, .ok ()) := by
  rfl

/-- C7 (counterexample): `verify_action` counts provided signatures
with multiplicity.  After a single admin records one signature "s" for
action "T", presenting `["s", "s", "s"]` — one distinct signature,
fewer than the 3 distinct admin signatures the claim requires —
authorizes the action. -/
theorem verify_action_duplicate_signatures_counterexample :
    (["s", "s", "s"].dedup.length = 1) ∧
    c7Client1.required_signatures = 3 ∧
    TestClient.verify_action c7Client1 "T" ["s", "s", "s"] = .ok true := by
  refine ⟨by decide, rfl, by decide⟩

/-- C7 (amended): `verify_action(action_type, provided)` returns `Ok
true` iff at least `required_signatures` (= 3) signatures are provided
— counted with multiplicity, so repeats of one recorded signature can
reach the threshold — and every provided signature occurs in the list
recorded for that action type; `sign_action` fails with the
not-an-admin error when the key is not in the admin table, and with the
already-signed error — leaving the client, hence the recorded count,
unchanged — when that admin has already signed that action type. -/
theorem multisig_authorizer_contract :
    (∀ (c : TestClient) (ty : String) (sigs : List String),
      TestClient.verify_action c ty sigs = .ok true ↔
        (c.required_signatures ≤ sigs.length ∧
          ∃ a, findAction c.pending_actions ty = some a ∧
            ∀ sg ∈ sigs, sg ∈ a.signatures)) ∧
    (∀ (c : TestClient) (admin : Pubkey) (ty d sig : String),
      c.is_admin admin = false →
      TestClient.sign_action c admin ty d sig = (c, .error (.Custom "Not an admin"))) ∧
    (∀ (c : TestClient) (admin : Pubkey) (ty d sig : String) (a : AdminAction),
      c.is_admin admin = true →
      findAction c.pending_actions ty = some a →
      admin ∈ a.signed_by →
      TestClient.sign_action c admin ty d sig = (c, .error (.Custom "Admin already signed"))) := by
  refine ⟨?_, ?_, ?_⟩
  · intro c ty sigs
    unfold TestClient.verify_action
    by_cases h1 : sigs.length < c.required_signatures
    · rw [if_pos h1]
      have hn := Nat.not_le.mpr h1
      simp [hn]
    · rw [if_neg h1]
      have hle := Nat.not_lt.mp h1
      cases h2 : findAction c.pending_actions ty with
      | none => simp [hle]
      | some a =>
          simp only [Except.ok.injEq]
          rw [List.all_eq_true]
          constructor
          · intro hall
            refine ⟨hle, a, rfl, fun sg hsg => ?_⟩
            have := hall sg hsg
            simpa [List.contains, List.elem_iff] using this
          · rintro ⟨-, b, hb, hmem⟩
            cases hb
            intro sg hsg
            simpa [List.contains, List.elem_iff] using hmem sg hsg
  · intro c admin ty d sig h
    unfold TestClient.sign_action
    rw [if_pos (by simp [h])]
  · intro c admin ty d sig a hadm hfind hmem
    unfold TestClient.sign_action
    rw [if_neg (by simp [hadm]), hfind]
    simp [hmem]

/-- C7 (witness): the `sign_action` admin check applied concretely — a
key outside the admin table is rejected. -/
theorem multisig_authorizer_contract_witness :
    TestClient.sign_action c7Client0 2 "T" "d" "z" =
      (c7Client0, .error (.Custom "Not an admin")) :=
  multisig_authorizer_contract.2.1 c7Client0 2 "T" "d" "z" (by decide)

/-- C10: the authorization flag `sign_action` returns is computed from
`pending_actions.last()` — the most recently created action — not from
the action being signed.  Sequence A: action "A" holds two signatures
and action "B" (created later) holds one; admin 3 then signs "A",
bringing it to exactly 3 signatures, yet the call returns `Ok false`
because "B" has one.  Sequence B: action "A" holds one signature and
action "B" (created later) holds three; admin 5 then signs "A",
bringing it to only 2 signatures, yet the call returns `Ok true`
because "B" has three. -/
theorem sign_action_flag_uses_last_created :
    c10Client0.required_signatures = 3 ∧
    ((TestClient.sign_action c10A3 3 "A" "dA" "s3").2 = .ok false ∧
     (findAction (TestClient.sign_action c10A3 3 "A" "dA" "s3").1.pending_actions "A").map
        (fun a => a.signatures.length) = some 3) ∧
    ((TestClient.sign_action c10B4 5 "A" "dA" "s5").2 = .ok true ∧
     (findAction (TestClient.sign_action c10B4 5 "A" "dA" "s5").1.pending_actions "A").map
        (fun a => a.signatures.length) = some 2) := by
  refine ⟨rfl, ⟨by decide, by decide⟩, ⟨by decide, by decide⟩⟩

/-- C5: the burn calculation of `process_buyback_burn`.  Given a
well-formed call (accounts present, signer flag, admin authority,
readable state, parseable treasury key): with `nav_sats = 0` the
instruction fails with `InvalidNAVUpdate`; the 128-bit intermediate
product of two `u64` values can never overflow; with `nav_sats > 0`,
`ovt_to_burn = ⌊payment * total_supply / nav_sats⌋`, a quotient above
`u64::MAX` or a burn exceeding the supply fails with
`InvalidSupplyChange`, and otherwise
`new_supply = total_supply - ovt_to_burn` is passed to the Supply
Guard, whose verdict decides between committing the decremented supply
and surfacing its error. -/
theorem buyback_burn_calculation (secp : Bytes → Bool) (ctx : ProgramContext)
    (s_info a_info : AccountInfo) (s : OVTState) (txid : Bytes) (pay : Nat)
    (h0 : ctx.get 0 = .ok s_info) (h1 : ctx.get 1 = .ok a_info)
    (hs : a_info.is_signer = true) (ha : ctx.is_admin a_info.key = true)
    (hd : s_info.get_data = .ok s) (ht : secp s.treasury_pubkey_bytes = true)
    (hw : s_info.is_writable = true)
    (hpay : pay ≤ u64MAX) (hsup : s.total_supply ≤ u64MAX) :
    pay * s.total_supply ≤ u128MAX ∧
    (s.nav_sats = 0 →
      OVTProgram.process_buyback_burn secp ctx txid pay =
        (ctx.accounts, .error (OVTError.InvalidNAVUpdate.toProgram))) ∧
    (0 < s.nav_sats →
      (u64MAX < pay * s.total_supply / s.nav_sats →
        OVTProgram.process_buyback_burn secp ctx txid pay =
          (ctx.accounts, .error (OVTError.InvalidSupplyChange.toProgram))) ∧
      (pay * s.total_supply / s.nav_sats ≤ u64MAX →
        s.total_supply < pay * s.total_supply / s.nav_sats →
        OVTProgram.process_buyback_burn secp ctx txid pay =
          (ctx.accounts, .error (OVTError.InvalidSupplyChange.toProgram))) ∧
      (pay * s.total_supply / s.nav_sats ≤ u64MAX →
        pay * s.total_supply / s.nav_sats ≤ s.total_supply →
        (OVTState.validate_supply_change s
            (s.total_supply - pay * s.total_supply / s.nav_sats) = .ok () →
          OVTProgram.process_buyback_burn secp ctx txid pay =
            (ctx.accounts.set 0
              { s_info with
                data := encodeState
                  { s with
                    total_supply := s.total_supply - pay * s.total_supply / s.nav_sats } },
             .ok ())) ∧
        (∀ e, OVTState.validate_supply_change s
            (s.total_supply - pay * s.total_supply / s.nav_sats) = .error e →
          OVTProgram.process_buyback_burn secp ctx txid pay = (ctx.accounts, .error e)))) := by
  have hmul : pay * s.total_supply ≤ u128MAX :=
    le_trans (Nat.mul_le_mul hpay hsup) (by decide)
  refine ⟨hmul, ?_, ?_⟩
  · intro hnav
    simp [OVTProgram.process_buyback_burn, h0, h1, hs, ha, hd,
      OVTState.validate_treasury, ht, hnav]
  · intro hnav
    have hne : s.nav_sats ≠ 0 := Nat.pos_iff_ne_zero.mp hnav
    refine ⟨?_, ?_, ?_⟩
    · intro hbig
      have hnle := Nat.not_le.mpr hbig
      simp [OVTProgram.process_buyback_burn, h0, h1, hs, ha, hd,
        OVTState.validate_treasury, ht, hnav, hne, checkedMulU128, checkedDivU128,
        checkedSubU64, hmul, hnle]
    · intro hle hunder
      have hnle := Nat.not_le.mpr hunder
      simp [OVTProgram.process_buyback_burn, h0, h1, hs, ha, hd,
        OVTState.validate_treasury, ht, hnav, hne, checkedMulU128, checkedDivU128,
        checkedSubU64, hmul, hle, hnle]
    · intro hle hble
      constructor
      · intro hvs
        simp [OVTProgram.process_buyback_burn, h0, h1, hs, ha, hd,
          OVTState.validate_treasury, ht, hnav, hne, checkedMulU128, checkedDivU128,
          checkedSubU64, hmul, hle, hble, hvs, AccountInfo.set_data, hw]
      · intro e hvs
        simp [OVTProgram.process_buyback_burn, h0, h1, hs, ha, hd,
          OVTState.validate_treasury, ht, hnav, hne, checkedMulU128, checkedDivU128,
          checkedSubU64, hmul, hle, hble, hvs]

/-- C5 (witness): the calculation at the spec's boundary case —
`payment = 100_000`, `total_supply = 1_000_000`, `nav_sats =
1_000_000` gives `ovt_to_burn = 100_000`; the `-10%` change to
`900_000` sits exactly on the Supply Guard's inclusive bound and is
committed. -/
theorem buyback_burn_calculation_witness :
    OVTProgram.process_buyback_burn secpAll c5Ctx [] 100000 =
      (c5Ctx.accounts.set 0
        { c5StateInfo with data := encodeState ⟨1000000, key0, 900000, 0⟩ }, .ok ()) := by
  have h := buyback_burn_calculation secpAll c5Ctx c5StateInfo c5AuthInfo
    ⟨1000000, key0, 1000000, 0⟩ [] 100000 (by decide) (by decide) rfl (by decide)
    (by decide) rfl rfl (by decide) (by decide)
  have h2 := ((h.2.2 (by decide)).2.2 (by decide) (by decide)).1 (by decide)
  exact h2.trans (by decide)

/-- C6 (counterexample): the exact-rational inclusive band `[0.9, 1.1]`
is not the Supply Guard's boundary.  From `total_supply = 10^16`, the
candidate `11 * 10^15 + 1` has exact ratio strictly above `11/10` — the
claim requires rejection — yet the guard accepts it: the candidate
rounds down to the double `1.1 * 10^16` during the `u64 → f64`
conversion, the quotient is exactly the binary64 literal `1.1`, and the
source's strict `> 1.1` test fails. -/
theorem supply_guard_exact_bounds_counterexample :
    (11 : ℚ) / 10 < ((11 * 10 ^ 15 + 1 : Nat) : ℚ) / ((10 ^ 16 : Nat) : ℚ) ∧
    OVTState.validate_supply_change ⟨0, key0, 10 ^ 16, 0⟩ (11 * 10 ^ 15 + 1) = .ok () := by
  constructor
  · have h16 : (0 : ℚ) < ((10 ^ 16 : Nat) : ℚ) := by push_cast; norm_num
    rw [div_lt_div_iff₀ (by norm_num : (0 : ℚ) < 10) h16]
    push_cast
    norm_num
  · decide

/-- C6 (amended): the Supply Guard rejects with `InvalidSupplyChange`
exactly when the current supply is positive and the IEEE-754 binary64
quotient `(new as f64) / (current as f64)` is strictly greater than the
binary64 literal `1.1` (`4953959590107546 * 2^-52`, strictly above
`11/10`) or strictly less than the binary64 literal `0.9`
(`8106479329266893 * 2^-53`, strictly above `9/10`); when the current
supply is zero every candidate is accepted.  At the spec's `1_000_000`
scale this coincides with the inclusive exact band — `900_000` and
`1_100_000` are accepted, `899_999` and `1_100_001` rejected — but the
exact-rational bounds are not the program's boundary for all `u64`
inputs. -/
theorem supply_guard_f64_characterization :
    (∀ (s : OVTState) (n : Nat), 0 < s.total_supply →
      (OVTState.validate_supply_change s n =
          .error (OVTError.InvalidSupplyChange.toProgram) ↔
        (dyLt f64Lit11 (changeRatioF64 n s.total_supply) = true ∨
         dyLt (changeRatioF64 n s.total_supply) f64Lit09 = true)) ∧
      (OVTState.validate_supply_change s n = .ok () ↔
        ¬ (dyLt f64Lit11 (changeRatioF64 n s.total_supply) = true ∨
           dyLt (changeRatioF64 n s.total_supply) f64Lit09 = true))) ∧
    (∀ (s : OVTState) (n : Nat), s.total_supply = 0 →
      OVTState.validate_supply_change s n = .ok ()) ∧
    (f64Lit11 = (4953959590107546, -52) ∧
     (11 : ℚ) / 10 < (4953959590107546 : ℚ) / 2 ^ 52 ∧
     f64Lit09 = (8106479329266893, -53) ∧
     (9 : ℚ) / 10 < (8106479329266893 : ℚ) / 2 ^ 53) ∧
    (OVTState.validate_supply_change ⟨0, key0, 1000000, 0⟩ 900000 = .ok () ∧
     OVTState.validate_supply_change ⟨0, key0, 1000000, 0⟩ 1100000 = .ok () ∧
     OVTState.validate_supply_change ⟨0, key0, 1000000, 0⟩ 899999 =
       .error (OVTError.InvalidSupplyChange.toProgram) ∧
     OVTState.validate_supply_change ⟨0, key0, 1000000, 0⟩ 1100001 =
       .error (OVTError.InvalidSupplyChange.toProgram)) := by
  refine ⟨?_, ?_, ⟨by decide, ?_, by decide, ?_⟩, by decide, by decide, by decide, by decide⟩
  · intro s n h
    unfold OVTState.validate_supply_change
    rw [if_pos h]
    by_cases h2 : (dyLt f64Lit11 (changeRatioF64 n s.total_supply) = true ∨
        dyLt (changeRatioF64 n s.total_supply) f64Lit09 = true)
    · rw [if_pos h2]
      exact ⟨⟨fun _ => h2, fun _ => rfl⟩,
        ⟨fun hok => absurd hok (by simp), fun hn => absurd h2 hn⟩⟩
    · rw [if_neg h2]
      exact ⟨⟨fun hok => absurd hok (by simp), fun hc => absurd hc h2⟩,
        ⟨fun _ => h2, fun _ => rfl⟩⟩
  · intro s n h
    unfold OVTState.validate_supply_change
    rw [if_neg (by omega)]
  · rw [lt_div_iff₀ (by norm_num : (0 : ℚ) < 2 ^ 52)]
    norm_num
  · rw [lt_div_iff₀ (by norm_num : (0 : ℚ) < 2 ^ 53)]
    norm_num

/-- C6 (witness): the amended characterization applied concretely — a
zero-supply state accepts any candidate. -/
theorem supply_guard_f64_characterization_witness :
    OVTState.validate_supply_change ⟨0, key0, 0, 0⟩ 12345 = .ok () :=
  supply_guard_f64_characterization.2.1 ⟨0, key0, 0, 0⟩ 12345 rfl
